import Mathlib

/-!
Shallow embedding of the warehouse-management data layer of
`spatial-wise-manager` and proofs about it.

The embedding covers:
* the three persisted tables (`layouts`, `groups`, `locations`) of
  `src/lib/database.ts`, modelled as a record of lists together with the
  auto-increment counters of the embedded store (Dexie keys start at 1);
* the Data Access API of `src/lib/database.ts` (`createLayout`,
  `getLayoutById`, `deleteLayout`, `createGroup`, `getGroupsByLayoutId`,
  `deleteGroup`, `createLocation`, `getLocationsByGroupId`,
  `getLocationsByLayoutId`, `updateLocation`);
* the group-creation business logic `handleCreateGroup` of
  `src/components/GroupManagement` (validation, `createGroup`, and the
  nested bulk `createLocation` loop with address synthesis);
* the per-cell group lookup of `src/components/LayoutVisualization`.

JavaScript numbers are modelled as `Nat`: every numeric value observed in
this code path is a nonnegative integer (auto-increment keys, grid sizes
parsed from number inputs, loop counters, timestamps).  The `row` field of
a group is modelled as `Option Nat` because the TypeScript creation path
omits it, leaving it `undefined` in the stored record; `none` models
`undefined`.  Failure results (early returns behind a user-visible toast)
are modelled with `Except String`; an `Except.error` is produced before
any store call is issued, so the store argument is untouched in that case.
-/

namespace SpatialWise

/-- One row of the `layouts` table (interface `Layout` of
`src/lib/database.ts`), with its auto-assigned primary key. -/
structure Layout where
  id : Nat
  name : String
  rows : Nat
  columns : Nat
  createdAt : Nat
deriving DecidableEq, Repr

/-- One row of the `groups` table (interface `Group` of
`src/lib/database.ts`).  `row` is `Option Nat`: the primary creation flow
stores the record without this field, i.e. with value `undefined`,
modelled as `none`. -/
structure Group where
  id : Nat
  name : String
  layoutId : Nat
  column : Nat
  row : Option Nat
  rows : Nat
  columns : Nat
  createdAt : Nat
deriving DecidableEq, Repr

/-- One row of the `locations` table (interface `Location` of
`src/lib/database.ts`). -/
structure Location where
  id : Nat
  groupId : Nat
  layoutId : Nat
  row : Nat
  column : Nat
  address : String
  isOccupied : Bool
deriving DecidableEq, Repr

/-- The embedded store: the three tables plus the auto-increment counter
of each (Dexie `++id` primary keys; the next key to be assigned). -/
structure DB where
  layouts : List Layout
  groups : List Group
  locations : List Location
  nextLayoutId : Nat
  nextGroupId : Nat
  nextLocationId : Nat
deriving DecidableEq, Repr

/-- A fresh store: all tables empty, auto-increment keys starting at 1. -/
def emptyDB : DB :=
  { layouts := [], groups := [], locations := [],
    nextLayoutId := 1, nextGroupId := 1, nextLocationId := 1 }

/-! ### Data Access API (`src/lib/database.ts`) -/

/-- `createLayout(layout)`: spreads the given fields, assigns
`createdAt: new Date()` (the `now` argument) and the next auto-increment
key, inserts the row and returns the new key. -/
def createLayout (name : String) (rows columns : Nat) (now : Nat) (db : DB) :
    DB × Nat :=
  ({ db with
      layouts := db.layouts ++
        [{ id := db.nextLayoutId, name := name, rows := rows,
           columns := columns, createdAt := now }],
      nextLayoutId := db.nextLayoutId + 1 },
   db.nextLayoutId)

/-- `getLayoutById(id)`: `db.layouts.get(id)`, lookup by primary key. -/
def getLayoutById (id : Nat) (db : DB) : Option Layout :=
  db.layouts.find? (fun l => l.id == id)

/-- `getGroupsByLayoutId(layoutId)`:
`db.groups.where({layoutId}).toArray()`. -/
def getGroupsByLayoutId (layoutId : Nat) (db : DB) : List Group :=
  db.groups.filter (fun g => g.layoutId == layoutId)

/-- `getLocationsByGroupId(groupId)`:
`db.locations.where({groupId}).toArray()`. -/
def getLocationsByGroupId (groupId : Nat) (db : DB) : List Location :=
  db.locations.filter (fun loc => loc.groupId == groupId)

/-- `getLocationsByLayoutId(layoutId)`:
`db.locations.where({layoutId}).toArray()`. -/
def getLocationsByLayoutId (layoutId : Nat) (db : DB) : List Location :=
  db.locations.filter (fun loc => loc.layoutId == layoutId)

/-- One primitive delete issued against the store during `deleteLayout`,
recorded in program order so the issuing order can be stated. -/
inductive DeleteOp where
  | locationsByGroup (groupId : Nat)
  | groupsByLayout (layoutId : Nat)
  | layoutById (id : Nat)
deriving DecidableEq, Repr

/-- Rank of a delete operation in the order the spec prescribes:
location deletes first, then the group delete, then the layout delete. -/
def DeleteOp.kind : DeleteOp → Nat
  | .locationsByGroup _ => 0
  | .groupsByLayout _ => 1
  | .layoutById _ => 2

/-- A delete trace is ordered when the recorded operations appear with
nondecreasing rank: all location deletes before the group delete before
the layout delete. -/
def traceOrdered (t : List DeleteOp) : Prop :=
  (t.map DeleteOp.kind).Pairwise (· ≤ ·)

/-- Body of the `for (const group of groups)` loop of `deleteLayout`:
`if (group.id) await db.locations.where({groupId: group.id}).delete()`.
JavaScript truthiness of a number: `0` is falsy, so the guard is
`g.id ≠ 0`.  The issued delete is recorded in the trace. -/
def deleteLayoutStep (acc : DB × List DeleteOp) (g : Group) :
    DB × List DeleteOp :=
  if g.id ≠ 0 then
    ({ acc.1 with
        locations := acc.1.locations.filter (fun loc => !(loc.groupId == g.id)) },
     acc.2 ++ [DeleteOp.locationsByGroup g.id])
  else acc

/-- `deleteLayout(id)`: reads the groups of the layout, deletes each
group's locations (guarded by `if (group.id)`), then deletes the groups
by `layoutId`, then the layout by primary key.  Returns the new store and
the trace of issued deletes in program order. -/
def deleteLayout (id : Nat) (db : DB) : DB × List DeleteOp :=
  let gs := db.groups.filter (fun g => g.layoutId == id)
  let step := gs.foldl deleteLayoutStep (db, [])
  let db2 := { step.1 with
    groups := step.1.groups.filter (fun g => !(g.layoutId == id)) }
  let db3 := { db2 with
    layouts := db2.layouts.filter (fun l => !(l.id == id)) }
  (db3, step.2 ++ [DeleteOp.groupsByLayout id, DeleteOp.layoutById id])

/-- `createGroup(group)`: spreads the given fields, assigns
`createdAt: new Date()` and the next auto-increment key, inserts the row
and returns the new key. -/
def createGroup (name : String) (layoutId column : Nat) (row : Option Nat)
    (rows columns : Nat) (now : Nat) (db : DB) : DB × Nat :=
  ({ db with
      groups := db.groups ++
        [{ id := db.nextGroupId, name := name, layoutId := layoutId,
           column := column, row := row, rows := rows, columns := columns,
           createdAt := now }],
      nextGroupId := db.nextGroupId + 1 },
   db.nextGroupId)

/-- `deleteGroup(id)`: deletes all locations referencing this group, then
the group itself by primary key. -/
def deleteGroup (id : Nat) (db : DB) : DB :=
  let db1 := { db with
    locations := db.locations.filter (fun loc => !(loc.groupId == id)) }
  { db1 with groups := db1.groups.filter (fun g => !(g.id == id)) }

/-- `createLocation(location)`: inserts one row with the next
auto-increment key and returns the key. -/
def createLocation (groupId layoutId row column : Nat) (address : String)
    (isOccupied : Bool) (db : DB) : DB × Nat :=
  ({ db with
      locations := db.locations ++
        [{ id := db.nextLocationId, groupId := groupId, layoutId := layoutId,
           row := row, column := column, address := address,
           isOccupied := isOccupied }],
      nextLocationId := db.nextLocationId + 1 },
   db.nextLocationId)

/-- A partial change passed to `updateLocation`: only the fields present
in the `Partial<Location>` object are updated.  `none` models an absent
key. -/
structure LocationChanges where
  groupId : Option Nat := none
  layoutId : Option Nat := none
  row : Option Nat := none
  column : Option Nat := none
  address : Option String := none
  isOccupied : Option Bool := none
deriving DecidableEq, Repr

/-- Merging a partial change into an existing row: present fields
overwrite, absent fields are kept. -/
def applyChanges (c : LocationChanges) (loc : Location) : Location :=
  { loc with
    groupId := c.groupId.getD loc.groupId,
    layoutId := c.layoutId.getD loc.layoutId,
    row := c.row.getD loc.row,
    column := c.column.getD loc.column,
    address := c.address.getD loc.address,
    isOccupied := c.isOccupied.getD loc.isOccupied }

/-- `updateLocation(id, changes)`: `db.locations.update(id, changes)`.
Dexie merges the changes into the row with primary key `id` and resolves
with the number of updated records: 1 when the key exists, 0 when it does
not (no error is raised for a missing key). -/
def updateLocation (id : Nat) (c : LocationChanges) (db : DB) : DB × Nat :=
  if db.locations.any (fun loc => loc.id == id) then
    ({ db with
        locations := db.locations.map
          (fun loc => if loc.id == id then applyChanges c loc else loc) },
     1)
  else (db, 0)

/-- The partial change `{ isOccupied: b }` sent by `toggleOccupancy` in
`LayoutVisualization`: only the `isOccupied` key is present. -/
def occupancyChange (b : Bool) : LocationChanges :=
  { isOccupied := some b }

/-! ### Group creation flow (`handleCreateGroup` in `GroupManagement`) -/

/-- Address synthesis of the bulk-creation loop, the `switch
(addressFormat)` over 0-based `row`/`col`.
`"ROW-COL"` gives `` `${groupName}-${row + 1}-${col + 1}` ``;
`"LETTER-NUMBER"` gives
`` `${groupName}-${String.fromCharCode(65 + row)}-${col + 1}` ``;
any other format falls through to the default, identical to
`"ROW-COL"`. -/
def mkAddress (fmt name : String) (row col : Nat) : String :=
  if fmt = "ROW-COL" then
    name ++ "-" ++ toString (row + 1) ++ "-" ++ toString (col + 1)
  else if fmt = "LETTER-NUMBER" then
    name ++ "-" ++ String.singleton (Char.ofNat (65 + row)) ++ "-" ++
      toString (col + 1)
  else
    name ++ "-" ++ toString (row + 1) ++ "-" ++ toString (col + 1)

/-- The nested `for (let row …) for (let col …)` bulk-creation loop of
`handleCreateGroup`: one `createLocation` call per `(row, col)` in
`[0, groupRows) × [0, groupColumns)`, in program order, each with the
synthesized address and `isOccupied: false`. -/
def createLocationsForGroup (gid lid : Nat) (name fmt : String)
    (groupRows groupColumns : Nat) (db : DB) : DB :=
  (List.range groupRows).foldl
    (fun dbr row =>
      (List.range groupColumns).foldl
        (fun dbc col =>
          (createLocation gid lid row col (mkAddress fmt name row col)
            false dbc).1)
        dbr)
    db

/-- The component state `handleCreateGroup` reads: the selected layout,
the form fields, and the chosen address format.  `selectedColumn` is
`null` until a column is picked. -/
structure GroupForm where
  selectedLayout : Option Layout
  groupName : String
  selectedColumn : Option Nat
  groupRows : Nat
  groupColumns : Nat
  addressFormat : String
deriving DecidableEq, Repr

/-- The JavaScript check `!groupName.trim()`: the trimmed name is the
empty string exactly when every character of the name is whitespace.
(`String.trim` itself is not used because the check, not the trimmed
string, is what the code branches on.) -/
def trimIsEmpty (s : String) : Bool :=
  s.data.all (fun c => c.isWhitespace)

/-- `handleCreateGroup` of `GroupManagement`: the validation sequence in
source order (`!selectedLayout?.id`, `!groupName.trim()`,
`selectedColumn === null`, `groupRows < 1 || groupColumns < 1`,
`selectedColumn > selectedLayout.columns`), then `createGroup` (with no
`row` field, modelled as `none`) followed by the bulk-creation loop.
An `Except.error` is an early return raised before any store call; the
store is untouched in that case.  On success the new store and the new
group's key are returned. -/
def handleCreateGroup (st : GroupForm) (now : Nat) (db : DB) :
    Except String (DB × Nat) :=
  match st.selectedLayout with
  | none => .error "Please select a layout first"
  | some lay =>
    if lay.id = 0 then .error "Please select a layout first"
    else if trimIsEmpty st.groupName then .error "Group name is required"
    else match st.selectedColumn with
      | none => .error "Please select a column"
      | some col =>
        if st.groupRows < 1 ∨ st.groupColumns < 1 then
          .error "Rows and columns must be at least 1"
        else if lay.columns < col then
          .error "Selected column is out of range"
        else
          let res := createGroup st.groupName lay.id col none
            st.groupRows st.groupColumns now db
          let db2 := createLocationsForGroup res.2 lay.id st.groupName
            st.addressFormat st.groupRows st.groupColumns res.1
          .ok (db2, res.2)

/-! ### Visualization cell lookup (`LayoutVisualization`) -/

/-- The per-cell group lookup of the visualization grid:
`groups.find(g => g.row === (rowIndex + 1) && g.column === (colIndex + 1))`.
JavaScript strict equality of `undefined` with a number is `false`, which
the `Option Nat` comparison `g.row == some (rowIndex + 1)` reproduces. -/
def cellGroup (groups : List Group) (rowIndex colIndex : Nat) : Option Group :=
  groups.find? (fun g =>
    (g.row == some (rowIndex + 1)) && (g.column == colIndex + 1))

/-! ### Characterization of the bulk-creation loop -/

/-- The location inserted by one iteration of the bulk-creation loop,
given the auto-increment key `fresh` it receives. -/
def genLoc (gid lid : Nat) (name fmt : String) (row col fresh : Nat) :
    Location :=
  { id := fresh, groupId := gid, layoutId := lid, row := row, column := col,
    address := mkAddress fmt name row col, isOccupied := false }

/-- The locations inserted by one pass of the inner (column) loop for a
fixed `row`, with keys `fresh, fresh + 1, …`. -/
def genRow (gid lid : Nat) (name fmt : String) (row groupColumns fresh : Nat) :
    List Location :=
  (List.range groupColumns).map
    (fun col => genLoc gid lid name fmt row col (fresh + col))

/-- All locations inserted by the nested loop, row-major, with
consecutive keys starting at `fresh`. -/
def genGrid (gid lid : Nat) (name fmt : String)
    (groupRows groupColumns fresh : Nat) : List Location :=
  (List.range groupRows).flatMap
    (fun row => genRow gid lid name fmt row groupColumns
      (fresh + row * groupColumns))

theorem innerLoop_spec (gid lid : Nat) (name fmt : String) (row : Nat) :
    ∀ (C : Nat) (db : DB),
      (List.range C).foldl
        (fun dbc col =>
          (createLocation gid lid row col (mkAddress fmt name row col)
            false dbc).1)
        db =
      { db with
          locations := db.locations ++
            genRow gid lid name fmt row C db.nextLocationId,
          nextLocationId := db.nextLocationId + C } := by
  intro C
  induction C with
  | zero =>
    intro db
    simp [genRow]
  | succ C ih =>
    intro db
    rw [List.range_succ, List.foldl_append, ih]
    simp only [List.foldl_cons, List.foldl_nil, createLocation, genRow,
      List.range_succ, List.map_append, List.map_cons, List.map_nil]
    refine congrArg₂ (fun a b => DB.mk db.layouts db.groups a db.nextLayoutId
      db.nextGroupId b) ?_ ?_
    · simp [genLoc, List.append_assoc]
    · omega

theorem createLocationsForGroup_spec (gid lid : Nat) (name fmt : String) :
    ∀ (R C : Nat) (db : DB),
      createLocationsForGroup gid lid name fmt R C db =
      { db with
          locations := db.locations ++
            genGrid gid lid name fmt R C db.nextLocationId,
          nextLocationId := db.nextLocationId + R * C } := by
  intro R
  induction R with
  | zero =>
    intro C db
    simp [createLocationsForGroup, genGrid]
  | succ R ih =>
    intro C db
    unfold createLocationsForGroup at ih ⊢
    rw [List.range_succ, List.foldl_append, ih, List.foldl_cons,
      List.foldl_nil, innerLoop_spec]
    simp only [genGrid, List.range_succ, List.flatMap_append,
      List.flatMap_cons, List.flatMap_nil]
    refine congrArg₂ (fun a b => DB.mk db.layouts db.groups a db.nextLayoutId
      db.nextGroupId b) ?_ ?_
    · simp only [List.append_assoc, List.append_nil]
    · rw [Nat.succ_mul]
      omega

theorem mem_genGrid {gid lid : Nat} {name fmt : String}
    {R C fresh : Nat} {loc : Location} :
    loc ∈ genGrid gid lid name fmt R C fresh ↔
      ∃ row col, row < R ∧ col < C ∧
        loc = genLoc gid lid name fmt row col (fresh + row * C + col) := by
  simp only [genGrid, genRow, List.mem_flatMap, List.mem_map, List.mem_range]
  constructor
  · rintro ⟨row, hrow, col, hcol, rfl⟩
    exact ⟨row, col, hrow, hcol, rfl⟩
  · rintro ⟨row, col, hrow, hcol, rfl⟩
    exact ⟨row, hrow, col, hcol, rfl⟩

theorem genGrid_map_pair (gid lid : Nat) (name fmt : String)
    (R C fresh : Nat) :
    (genGrid gid lid name fmt R C fresh).map
        (fun loc => (loc.row, loc.column)) =
      (List.range R) ×ˢ (List.range C) := by
  show _ = List.product _ _
  simp only [genGrid, genRow, List.product, List.map_flatMap, List.map_map]
  rfl

/-- The group record inserted by a successful `handleCreateGroup`: the
form fields, the selected layout's id, the next auto-increment key, and
no `row` field (`undefined`, modelled as `none`). -/
def newGroup (st : GroupForm) (lay : Layout) (col now : Nat) (db : DB) :
    Group :=
  { id := db.nextGroupId, name := st.groupName, layoutId := lay.id,
    column := col, row := none, rows := st.groupRows,
    columns := st.groupColumns, createdAt := now }

theorem handleCreateGroup_ok {st : GroupForm} {lay : Layout} {col : Nat}
    (now : Nat) (db : DB)
    (hlay : st.selectedLayout = some lay) (hid : lay.id ≠ 0)
    (hname : trimIsEmpty st.groupName = false)
    (hcol : st.selectedColumn = some col)
    (hR : 1 ≤ st.groupRows) (hC : 1 ≤ st.groupColumns)
    (hrange : col ≤ lay.columns) :
    handleCreateGroup st now db = .ok
      ({ db with
          groups := db.groups ++ [newGroup st lay col now db],
          locations := db.locations ++
            genGrid db.nextGroupId lay.id st.groupName st.addressFormat
              st.groupRows st.groupColumns db.nextLocationId,
          nextGroupId := db.nextGroupId + 1,
          nextLocationId :=
            db.nextLocationId + st.groupRows * st.groupColumns },
       db.nextGroupId) := by
  have h1 : ¬(st.groupRows < 1 ∨ st.groupColumns < 1) := by omega
  have h2 : ¬(lay.columns < col) := by omega
  simp only [handleCreateGroup, hlay, hcol, hname, Bool.false_eq_true,
    if_false, if_neg hid, if_neg h1, if_neg h2, createGroup,
    createLocationsForGroup_spec, newGroup]

theorem mem_genGrid_fields {gid lid : Nat} {name fmt : String}
    {R C fresh : Nat} {loc : Location}
    (h : loc ∈ genGrid gid lid name fmt R C fresh) :
    loc.groupId = gid ∧ loc.layoutId = lid ∧ loc.isOccupied = false ∧
      loc.row < R ∧ loc.column < C ∧
      loc.address = mkAddress fmt name loc.row loc.column := by
  obtain ⟨row, col, hrow, hcol, rfl⟩ := mem_genGrid.mp h
  exact ⟨rfl, rfl, rfl, hrow, hcol, rfl⟩

theorem filter_genGrid_self (gid lid : Nat) (name fmt : String)
    (R C fresh : Nat) :
    (genGrid gid lid name fmt R C fresh).filter
        (fun loc => loc.groupId == gid) =
      genGrid gid lid name fmt R C fresh := by
  rw [List.filter_eq_self]
  intro loc hloc
  simp [(mem_genGrid_fields hloc).1]

theorem getLocationsByGroupId_after_create {gid lid : Nat}
    {name fmt : String} {R C : Nat} {db : DB} {dbnew : DB}
    (hfresh : ∀ loc ∈ db.locations, loc.groupId ≠ gid)
    (hloc : dbnew.locations = db.locations ++
      genGrid gid lid name fmt R C db.nextLocationId) :
    getLocationsByGroupId gid dbnew =
      genGrid gid lid name fmt R C db.nextLocationId := by
  unfold getLocationsByGroupId
  rw [hloc, List.filter_append, filter_genGrid_self]
  have : db.locations.filter (fun loc => loc.groupId == gid) = [] := by
    rw [List.filter_eq_nil_iff]
    intro loc hl
    simp [hfresh loc hl]
  rw [this, List.nil_append]

theorem genGrid_length (gid lid : Nat) (name fmt : String)
    (R C fresh : Nat) :
    (genGrid gid lid name fmt R C fresh).length = R * C := by
  have h := congrArg List.length (genGrid_map_pair gid lid name fmt R C fresh)
  rw [List.length_map, List.length_product, List.length_range,
    List.length_range] at h
  exact h

/-! ### Concrete instances used by the witnesses -/

/-- A concrete layout: id 1, a 4 × 5 grid. -/
def lay0 : Layout :=
  { id := 1, name := "L1", rows := 4, columns := 5, createdAt := 0 }

/-- A concrete valid group form: group "A" at column 2 of `lay0`, a 2 × 3
internal grid, numeric address format. -/
def st0 : GroupForm :=
  { selectedLayout := some lay0, groupName := "A", selectedColumn := some 2,
    groupRows := 2, groupColumns := 3, addressFormat := "ROW-COL" }

/-- A concrete valid group form with the alphanumeric address format:
group "B" at column 1 of `lay0`, a 2 × 2 internal grid. -/
def st1 : GroupForm :=
  { selectedLayout := some lay0, groupName := "B", selectedColumn := some 1,
    groupRows := 2, groupColumns := 2, addressFormat := "LETTER-NUMBER" }

/-! ### Claims -/

/-- C1: for every group created through the group-creation flow with
`rows = R ≥ 1` and `columns = C ≥ 1`, after the bulk-generation loop
completes, exactly `R * C` locations exist for the new group's id, their
`(row, column)` pairs are pairwise distinct, the set of pairs is the
Cartesian product `[0, R) × [0, C)`, and every generated location has
`isOccupied = false`. -/
theorem handleCreateGroup_generates_full_grid {st : GroupForm}
    {lay : Layout} {col : Nat} (now : Nat) (db : DB)
    (hlay : st.selectedLayout = some lay) (hid : lay.id ≠ 0)
    (hname : trimIsEmpty st.groupName = false)
    (hcol : st.selectedColumn = some col)
    (hR : 1 ≤ st.groupRows) (hC : 1 ≤ st.groupColumns)
    (hrange : col ≤ lay.columns)
    (hfresh : ∀ loc ∈ db.locations, loc.groupId ≠ db.nextGroupId) :
    ∃ db', handleCreateGroup st now db = .ok (db', db.nextGroupId) ∧
      (getLocationsByGroupId db.nextGroupId db').length =
        st.groupRows * st.groupColumns ∧
      ((getLocationsByGroupId db.nextGroupId db').map
        (fun loc => (loc.row, loc.column))).Nodup ∧
      (∀ r c : Nat,
        (r, c) ∈ (getLocationsByGroupId db.nextGroupId db').map
          (fun loc => (loc.row, loc.column)) ↔
        r < st.groupRows ∧ c < st.groupColumns) ∧
      (∀ loc ∈ getLocationsByGroupId db.nextGroupId db',
        loc.isOccupied = false) := by
  refine ⟨_, handleCreateGroup_ok now db hlay hid hname hcol hR hC hrange,
    ?_, ?_, ?_, ?_⟩
  · rw [getLocationsByGroupId_after_create hfresh rfl, genGrid_length]
  · rw [getLocationsByGroupId_after_create hfresh rfl, genGrid_map_pair]
    exact List.Nodup.product (List.nodup_range _) (List.nodup_range _)
  · intro r c
    rw [getLocationsByGroupId_after_create hfresh rfl, genGrid_map_pair,
      List.mem_product, List.mem_range, List.mem_range]
  · intro loc hloc
    rw [getLocationsByGroupId_after_create hfresh rfl] at hloc
    exact (mem_genGrid_fields hloc).2.2.1

/-- Witness for C1: group "A", a 2 × 3 grid, created in the fresh store. -/
theorem handleCreateGroup_generates_full_grid_witness :
    (st0.selectedLayout = some lay0 ∧ lay0.id ≠ 0 ∧
      trimIsEmpty st0.groupName = false ∧ st0.selectedColumn = some 2 ∧
      1 ≤ st0.groupRows ∧ 1 ≤ st0.groupColumns ∧ 2 ≤ lay0.columns ∧
      ∀ loc ∈ emptyDB.locations, loc.groupId ≠ emptyDB.nextGroupId) ∧
    (∃ db', handleCreateGroup st0 0 emptyDB = .ok (db', emptyDB.nextGroupId) ∧
      (getLocationsByGroupId emptyDB.nextGroupId db').length =
        st0.groupRows * st0.groupColumns ∧
      ((getLocationsByGroupId emptyDB.nextGroupId db').map
        (fun loc => (loc.row, loc.column))).Nodup ∧
      (∀ r c : Nat,
        (r, c) ∈ (getLocationsByGroupId emptyDB.nextGroupId db').map
          (fun loc => (loc.row, loc.column)) ↔
        r < st0.groupRows ∧ c < st0.groupColumns) ∧
      (∀ loc ∈ getLocationsByGroupId emptyDB.nextGroupId db',
        loc.isOccupied = false)) :=
  ⟨⟨rfl, by decide, by decide, rfl, by decide, by decide, by decide,
    by decide⟩,
   handleCreateGroup_generates_full_grid 0 emptyDB rfl (by decide)
     (by decide) rfl (by decide) (by decide) (by decide) (by decide)⟩

/-- C6: under address format `"ROW-COL"`, every location generated by the
group-creation flow for group name `N` at 0-based `(row, col)` has
address `N ++ "-" ++ (row+1) ++ "-" ++ (col+1)`; in particular group "A"
at `(0, 0)` yields "A-1-1" and at `(1, 2)` yields "A-2-3". -/
theorem address_format_row_col {st : GroupForm} {lay : Layout} {col : Nat}
    (now : Nat) (db : DB)
    (hlay : st.selectedLayout = some lay) (hid : lay.id ≠ 0)
    (hname : trimIsEmpty st.groupName = false)
    (hcol : st.selectedColumn = some col)
    (hR : 1 ≤ st.groupRows) (hC : 1 ≤ st.groupColumns)
    (hrange : col ≤ lay.columns)
    (hfresh : ∀ loc ∈ db.locations, loc.groupId ≠ db.nextGroupId)
    (hfmt : st.addressFormat = "ROW-COL") :
    ∃ db', handleCreateGroup st now db = .ok (db', db.nextGroupId) ∧
      (∀ loc ∈ getLocationsByGroupId db.nextGroupId db',
        loc.address = st.groupName ++ "-" ++ toString (loc.row + 1) ++
          "-" ++ toString (loc.column + 1)) ∧
      mkAddress "ROW-COL" "A" 0 0 = "A-1-1" ∧
      mkAddress "ROW-COL" "A" 1 2 = "A-2-3" := by
  refine ⟨_, handleCreateGroup_ok now db hlay hid hname hcol hR hC hrange,
    ?_, by decide, by decide⟩
  intro loc hloc
  rw [getLocationsByGroupId_after_create hfresh rfl] at hloc
  rw [(mem_genGrid_fields hloc).2.2.2.2.2, hfmt, mkAddress, if_pos rfl]

/-- Witness for C6: group "A", a 2 × 3 grid, numeric format, fresh store. -/
theorem address_format_row_col_witness :
    (st0.selectedLayout = some lay0 ∧ lay0.id ≠ 0 ∧
      trimIsEmpty st0.groupName = false ∧ st0.selectedColumn = some 2 ∧
      1 ≤ st0.groupRows ∧ 1 ≤ st0.groupColumns ∧ 2 ≤ lay0.columns ∧
      (∀ loc ∈ emptyDB.locations, loc.groupId ≠ emptyDB.nextGroupId) ∧
      st0.addressFormat = "ROW-COL") ∧
    (∃ db', handleCreateGroup st0 0 emptyDB = .ok (db', emptyDB.nextGroupId) ∧
      (∀ loc ∈ getLocationsByGroupId emptyDB.nextGroupId db',
        loc.address = st0.groupName ++ "-" ++ toString (loc.row + 1) ++
          "-" ++ toString (loc.column + 1)) ∧
      mkAddress "ROW-COL" "A" 0 0 = "A-1-1" ∧
      mkAddress "ROW-COL" "A" 1 2 = "A-2-3") :=
  ⟨⟨rfl, by decide, by decide, rfl, by decide, by decide, by decide,
    by decide, rfl⟩,
   address_format_row_col 0 emptyDB rfl (by decide) (by decide) rfl
     (by decide) (by decide) (by decide) (by decide) rfl⟩

/-- C7: under address format `"LETTER-NUMBER"`, every location generated
by the group-creation flow (for a group with at most 26 rows) for group
name `N` at 0-based `(row, col)` has address
`N ++ "-" ++ letter(row) ++ "-" ++ (col+1)` where `letter(row)` is the
`row`-th uppercase letter starting at 'A'; in particular group "B" at
`(0, 0)` yields "B-A-1" and at `(1, 0)` yields "B-B-1". -/
theorem address_format_letter_number {st : GroupForm} {lay : Layout}
    {col : Nat} (now : Nat) (db : DB)
    (hlay : st.selectedLayout = some lay) (hid : lay.id ≠ 0)
    (hname : trimIsEmpty st.groupName = false)
    (hcol : st.selectedColumn = some col)
    (hR : 1 ≤ st.groupRows) (hC : 1 ≤ st.groupColumns)
    (hrange : col ≤ lay.columns)
    (hfresh : ∀ loc ∈ db.locations, loc.groupId ≠ db.nextGroupId)
    (hfmt : st.addressFormat = "LETTER-NUMBER")
    (hrows : st.groupRows ≤ 26) :
    ∃ db', handleCreateGroup st now db = .ok (db', db.nextGroupId) ∧
      (∀ loc ∈ getLocationsByGroupId db.nextGroupId db',
        loc.row < 26 ∧
        loc.address = st.groupName ++ "-" ++
          String.singleton (Char.ofNat (Char.toNat 'A' + loc.row)) ++
          "-" ++ toString (loc.column + 1)) ∧
      mkAddress "LETTER-NUMBER" "B" 0 0 = "B-A-1" ∧
      mkAddress "LETTER-NUMBER" "B" 1 0 = "B-B-1" := by
  refine ⟨_, handleCreateGroup_ok now db hlay hid hname hcol hR hC hrange,
    ?_, by decide, by decide⟩
  intro loc hloc
  rw [getLocationsByGroupId_after_create hfresh rfl] at hloc
  have hf := mem_genGrid_fields hloc
  refine ⟨lt_of_lt_of_le hf.2.2.2.1 hrows, ?_⟩
  rw [hf.2.2.2.2.2, hfmt, mkAddress, if_neg (by decide), if_pos rfl]
  rfl

/-- Witness for C7: group "B", a 2 × 2 grid, alphanumeric format, fresh
store. -/
theorem address_format_letter_number_witness :
    (st1.selectedLayout = some lay0 ∧ lay0.id ≠ 0 ∧
      trimIsEmpty st1.groupName = false ∧ st1.selectedColumn = some 1 ∧
      1 ≤ st1.groupRows ∧ 1 ≤ st1.groupColumns ∧ 1 ≤ lay0.columns ∧
      (∀ loc ∈ emptyDB.locations, loc.groupId ≠ emptyDB.nextGroupId) ∧
      st1.addressFormat = "LETTER-NUMBER" ∧ st1.groupRows ≤ 26) ∧
    (∃ db', handleCreateGroup st1 0 emptyDB = .ok (db', emptyDB.nextGroupId) ∧
      (∀ loc ∈ getLocationsByGroupId emptyDB.nextGroupId db',
        loc.row < 26 ∧
        loc.address = st1.groupName ++ "-" ++
          String.singleton (Char.ofNat (Char.toNat 'A' + loc.row)) ++
          "-" ++ toString (loc.column + 1)) ∧
      mkAddress "LETTER-NUMBER" "B" 0 0 = "B-A-1" ∧
      mkAddress "LETTER-NUMBER" "B" 1 0 = "B-B-1") :=
  ⟨⟨rfl, by decide, by decide, rfl, by decide, by decide, by decide,
    by decide, rfl, by decide⟩,
   address_format_letter_number 0 emptyDB rfl (by decide) (by decide) rfl
     (by decide) (by decide) (by decide) (by decide) rfl (by decide)⟩

/-- C9: a group created through the primary group-creation flow is stored
without its `row` field (modelled as `none`), and consequently the
visualization's per-cell lookup — which requires `g.row` to equal the
1-based row index — never returns that group for any cell. -/
theorem created_group_never_rendered {st : GroupForm} {lay : Layout}
    {col : Nat} (now : Nat) (db : DB)
    (hlay : st.selectedLayout = some lay) (hid : lay.id ≠ 0)
    (hname : trimIsEmpty st.groupName = false)
    (hcol : st.selectedColumn = some col)
    (hR : 1 ≤ st.groupRows) (hC : 1 ≤ st.groupColumns)
    (hrange : col ≤ lay.columns) :
    ∃ db', handleCreateGroup st now db = .ok (db', db.nextGroupId) ∧
      db'.groups = db.groups ++ [newGroup st lay col now db] ∧
      (newGroup st lay col now db).row = none ∧
      ∀ ri ci : Nat,
        cellGroup db'.groups ri ci ≠ some (newGroup st lay col now db) := by
  refine ⟨_, handleCreateGroup_ok now db hlay hid hname hcol hR hC hrange,
    rfl, rfl, ?_⟩
  intro ri ci h
  have hp := List.find?_some h
  simp [newGroup] at hp

/-- Witness for C9: group "A" created in the fresh store is stored with
`row = none` and is matched by no visualization cell. -/
theorem created_group_never_rendered_witness :
    (st0.selectedLayout = some lay0 ∧ lay0.id ≠ 0 ∧
      trimIsEmpty st0.groupName = false ∧ st0.selectedColumn = some 2 ∧
      1 ≤ st0.groupRows ∧ 1 ≤ st0.groupColumns ∧ 2 ≤ lay0.columns) ∧
    (∃ db', handleCreateGroup st0 0 emptyDB = .ok (db', emptyDB.nextGroupId) ∧
      db'.groups = emptyDB.groups ++ [newGroup st0 lay0 2 0 emptyDB] ∧
      (newGroup st0 lay0 2 0 emptyDB).row = none ∧
      ∀ ri ci : Nat,
        cellGroup db'.groups ri ci ≠ some (newGroup st0 lay0 2 0 emptyDB)) :=
  ⟨⟨rfl, by decide, by decide, rfl, by decide, by decide, by decide⟩,
   created_group_never_rendered 0 emptyDB rfl (by decide) (by decide) rfl
     (by decide) (by decide) (by decide)⟩

/-- A group form whose chosen column, 0, lies below the valid range
`[1, lay0.columns]`; every other field is valid. -/
def stColZero : GroupForm :=
  { selectedLayout := some lay0, groupName := "G", selectedColumn := some 0,
    groupRows := 1, groupColumns := 1, addressFormat := "ROW-COL" }

/-- A group form whose chosen column, 7, lies above `lay0.columns = 5`. -/
def stColHigh : GroupForm :=
  { selectedLayout := some lay0, groupName := "G", selectedColumn := some 7,
    groupRows := 1, groupColumns := 1, addressFormat := "ROW-COL" }

/-- Counterexample to C3 as stated: the chosen column 0 lies outside
`[1, lay0.columns]`, yet the attempt is not rejected — `handleCreateGroup`
succeeds, a group and a location are created, so the store changes.  The
caller-side validation only checks the upper bound
(`selectedColumn > selectedLayout.columns`), never `selectedColumn < 1`. -/
theorem column_lower_bound_not_validated :
    (stColZero.selectedColumn = some 0 ∧ ¬(1 ≤ 0 ∧ 0 ≤ lay0.columns)) ∧
    (handleCreateGroup stColZero 0 emptyDB).toOption.map
        (fun p => (p.1.groups.length, p.1.locations.length)) =
      some (1, 1) := by
  refine ⟨⟨rfl, by decide⟩, ?_⟩
  decide

/-- C3 (amended): for every group-creation attempt whose chosen column
exceeds `layout.columns`, the attempt is rejected by caller-side
validation — `handleCreateGroup` returns an error before any Data Access
API call, leaving the store unchanged.  (The lower bound `column ≥ 1` is
not validated; see the counterexample.) -/
theorem column_above_range_rejected {st : GroupForm} {lay : Layout}
    {col : Nat} (now : Nat) (db : DB)
    (hlay : st.selectedLayout = some lay)
    (hcol : st.selectedColumn = some col)
    (hgt : lay.columns < col) :
    ∃ msg, handleCreateGroup st now db = .error msg := by
  simp only [handleCreateGroup, hlay, hcol]
  split_ifs <;> exact ⟨_, rfl⟩

/-- Witness for the amended C3: chosen column 7 in a 5-column layout is
rejected. -/
theorem column_above_range_rejected_witness :
    (stColHigh.selectedLayout = some lay0 ∧
      stColHigh.selectedColumn = some 7 ∧ lay0.columns < 7) ∧
    (∃ msg, handleCreateGroup stColHigh 0 emptyDB = .error msg) :=
  ⟨⟨rfl, rfl, by decide⟩,
   column_above_range_rejected 0 emptyDB rfl rfl (by decide)⟩

/-- C4: updating a location with a partial change containing only
`isOccupied` leaves the layouts and groups tables unchanged, and maps the
locations table so that the row with the given id changes only its
`isOccupied` field (`{ loc with isOccupied := b }` keeps `address`,
`row`, `column`, `groupId` and `layoutId`) while every other row is kept
identical. -/
theorem updateLocation_isOccupied_frame (id : Nat) (b : Bool) (db : DB) :
    (updateLocation id (occupancyChange b) db).1.layouts = db.layouts ∧
    (updateLocation id (occupancyChange b) db).1.groups = db.groups ∧
    (updateLocation id (occupancyChange b) db).1.locations =
      db.locations.map (fun loc =>
        if loc.id == id then { loc with isOccupied := b } else loc) := by
  unfold updateLocation
  by_cases h : db.locations.any (fun loc => loc.id == id)
  · rw [if_pos h]
    refine ⟨rfl, rfl, ?_⟩
    apply List.map_congr_left
    intro loc _
    by_cases hid : (loc.id == id) = true
    · rw [if_pos hid, if_pos hid]
      rfl
    · rw [if_neg hid, if_neg hid]
  · rw [if_neg h]
    refine ⟨rfl, rfl, ?_⟩
    have hnone : ∀ loc ∈ db.locations, ¬(loc.id == id) = true := by
      intro loc hl hbeq
      exact h (List.any_eq_true.mpr ⟨loc, hl, hbeq⟩)
    have hmap : db.locations.map (fun loc =>
        if loc.id == id then { loc with isOccupied := b } else loc) =
        db.locations.map (fun loc => loc) :=
      List.map_congr_left (fun loc hl => if_neg (hnone loc hl))
    rw [hmap, List.map_id']

/-- C5: `deleteGroup(g)` removes exactly the locations whose `groupId`
equals `g` and the group `g` itself; every location of any other group,
every other group, and the whole layouts table are unchanged. -/
theorem deleteGroup_frame (id : Nat) (db : DB) :
    (deleteGroup id db).layouts = db.layouts ∧
    (∀ loc : Location, loc ∈ (deleteGroup id db).locations ↔
      loc ∈ db.locations ∧ loc.groupId ≠ id) ∧
    (∀ g : Group, g ∈ (deleteGroup id db).groups ↔
      g ∈ db.groups ∧ g.id ≠ id) := by
  refine ⟨rfl, ?_, ?_⟩ <;> intro x <;>
    simp [deleteGroup, List.mem_filter]

/-- C8: creating a layout with any name and `rows ≥ 1`, `columns ≥ 1` and
reading it back by the returned id yields a layout with exactly the
name, rows and columns given at creation. -/
theorem createLayout_roundtrip {name : String} {rows columns : Nat}
    (now : Nat) (db : DB)
    (_hr : 1 ≤ rows) (_hc : 1 ≤ columns)
    (hfresh : ∀ l ∈ db.layouts, l.id ≠ db.nextLayoutId) :
    ∃ l : Layout,
      getLayoutById (createLayout name rows columns now db).2
        (createLayout name rows columns now db).1 = some l ∧
      l.name = name ∧ l.rows = rows ∧ l.columns = columns := by
  have hfind : getLayoutById (createLayout name rows columns now db).2
      (createLayout name rows columns now db).1 =
      some { id := db.nextLayoutId, name := name, rows := rows,
             columns := columns, createdAt := now } := by
    unfold getLayoutById createLayout
    rw [List.find?_append]
    have hnone : db.layouts.find? (fun l => l.id == db.nextLayoutId) =
        none := by
      rw [List.find?_eq_none]
      intro l hl
      simp [hfresh l hl]
    rw [hnone]
    simp [List.find?]
  exact ⟨_, hfind, rfl, rfl, rfl⟩

/-- Witness for C8: layout "W" with 2 rows and 3 columns created in the
fresh store reads back with the same name, rows and columns. -/
theorem createLayout_roundtrip_witness :
    (1 ≤ 2 ∧ 1 ≤ 3 ∧
      ∀ l ∈ emptyDB.layouts, l.id ≠ emptyDB.nextLayoutId) ∧
    (∃ l : Layout,
      getLayoutById (createLayout "W" 2 3 0 emptyDB).2
        (createLayout "W" 2 3 0 emptyDB).1 = some l ∧
      l.name = "W" ∧ l.rows = 2 ∧ l.columns = 3) :=
  ⟨⟨by decide, by decide, by decide⟩,
   createLayout_roundtrip 0 emptyDB (by decide) (by decide) (by decide)⟩

/-- C10: `updateLocation` on an id not present in the locations table
leaves the whole store unchanged and reports zero updated records. -/
theorem updateLocation_missing_id_noop {id : Nat} {c : LocationChanges}
    {db : DB} (h : ∀ loc ∈ db.locations, loc.id ≠ id) :
    updateLocation id c db = (db, 0) := by
  unfold updateLocation
  rw [if_neg]
  intro hany
  obtain ⟨loc, hl, hbeq⟩ := List.any_eq_true.mp hany
  exact h loc hl (by simpa using hbeq)

/-- A store holding one location with id 1 (inside one group of one
layout), used by the C10 witness. -/
def dbOne : DB :=
  { layouts := [lay0],
    groups := [{ id := 1, name := "A", layoutId := 1, column := 2,
                 row := none, rows := 1, columns := 1, createdAt := 0 }],
    locations := [{ id := 1, groupId := 1, layoutId := 1, row := 0,
                    column := 0, address := "A-1-1", isOccupied := false }],
    nextLayoutId := 2, nextGroupId := 2, nextLocationId := 2 }

/-- Witness for C10: updating the absent id 2 in `dbOne` changes nothing
and reports zero updated records. -/
theorem updateLocation_missing_id_noop_witness :
    (∀ loc ∈ dbOne.locations, loc.id ≠ 2) ∧
    updateLocation 2 (occupancyChange true) dbOne = (dbOne, 0) :=
  ⟨by decide, updateLocation_missing_id_noop (by decide)⟩

theorem foldl_deleteLayoutStep_spec :
    ∀ (gs : List Group) (db0 : DB) (tr : List DeleteOp),
      ((gs.foldl deleteLayoutStep (db0, tr)).1.layouts = db0.layouts) ∧
      ((gs.foldl deleteLayoutStep (db0, tr)).1.groups = db0.groups) ∧
      (∀ loc : Location,
        loc ∈ (gs.foldl deleteLayoutStep (db0, tr)).1.locations ↔
          loc ∈ db0.locations ∧
            ∀ g ∈ gs, g.id ≠ 0 → loc.groupId ≠ g.id) ∧
      (∀ op ∈ (gs.foldl deleteLayoutStep (db0, tr)).2,
        op ∈ tr ∨ DeleteOp.kind op = 0) := by
  intro gs
  induction gs with
  | nil =>
    intro db0 tr
    refine ⟨rfl, rfl, fun loc => ?_, fun op hop => Or.inl hop⟩
    simp
  | cons g gs ih =>
    intro db0 tr
    rw [List.foldl_cons]
    by_cases h : g.id ≠ 0
    · rw [deleteLayoutStep, if_pos h]
      obtain ⟨ihl, ihg, ihloc, ihtr⟩ :=
        ih { db0 with locations :=
              db0.locations.filter (fun loc => !(loc.groupId == g.id)) }
           (tr ++ [DeleteOp.locationsByGroup g.id])
      refine ⟨ihl, ihg, fun loc => ?_, fun op hop => ?_⟩
      · rw [ihloc loc]
        simp only [List.mem_filter, Bool.not_eq_eq_eq_not, Bool.not_true,
          beq_eq_false_iff_ne, ne_eq, List.mem_cons]
        constructor
        · rintro ⟨⟨hmem, hne⟩, hrest⟩
          refine ⟨hmem, fun g' hg' hg'id => ?_⟩
          rcases hg' with rfl | hg'
          · exact hne
          · exact hrest g' hg' hg'id
        · rintro ⟨hmem, hall⟩
          exact ⟨⟨hmem, hall g (Or.inl rfl) h⟩,
            fun g' hg' hg'id => hall g' (Or.inr hg') hg'id⟩
      · rcases ihtr op hop with hin | hkind
        · rcases List.mem_append.mp hin with hin | hin
          · exact Or.inl hin
          · right
            rcases List.mem_singleton.mp hin with rfl
            rfl
        · exact Or.inr hkind
    · rw [deleteLayoutStep, if_neg h]
      obtain ⟨ihl, ihg, ihloc, ihtr⟩ := ih db0 tr
      push_neg at h
      refine ⟨ihl, ihg, fun loc => ?_, ihtr⟩
      rw [ihloc loc]
      simp only [List.mem_cons]
      constructor
      · rintro ⟨hmem, hall⟩
        refine ⟨hmem, fun g' hg' hg'id => ?_⟩
        rcases hg' with rfl | hg'
        · exact absurd h hg'id
        · exact hall g' hg' hg'id
      · rintro ⟨hmem, hall⟩
        exact ⟨hmem, fun g' hg' hg'id => hall g' (Or.inr hg') hg'id⟩

theorem pairwise_le_of_all_zero (l : List Nat) (h : ∀ x ∈ l, x = 0) :
    l.Pairwise (· ≤ ·) := by
  induction l with
  | nil => exact List.Pairwise.nil
  | cons a t ih =>
    refine List.Pairwise.cons (fun b hb => ?_)
      (ih fun x hx => h x (List.mem_cons_of_mem _ hx))
    rw [h a (List.mem_cons_self a t), h b (List.mem_cons_of_mem _ hb)]

/-- C2: deleting a layout removes that layout, every group of the layout,
and every location of those groups, issuing the deletes in the order
locations, then groups, then the layout; afterwards lookups by the
deleted layout id and by each deleted group id return empty results.
The two hypotheses are the store invariants the application maintains:
auto-assigned group keys are nonzero (Dexie keys start at 1), and every
location's denormalized `layoutId` agrees with its owning group's
`layoutId` (consistency is guaranteed at creation time; no independent
update path exists). -/
theorem deleteLayout_cascades {id : Nat} {db : DB}
    (hids : ∀ g ∈ db.groups, g.id ≠ 0)
    (hcons : ∀ loc ∈ db.locations, ∃ g ∈ db.groups,
      g.id = loc.groupId ∧ g.layoutId = loc.layoutId) :
    getLayoutById id (deleteLayout id db).1 = none ∧
    getGroupsByLayoutId id (deleteLayout id db).1 = [] ∧
    (∀ g ∈ db.groups, g.layoutId = id →
      getLocationsByGroupId g.id (deleteLayout id db).1 = []) ∧
    getLocationsByLayoutId id (deleteLayout id db).1 = [] ∧
    traceOrdered (deleteLayout id db).2 := by
  obtain ⟨hl, hg, hloc, htr⟩ := foldl_deleteLayoutStep_spec
    (db.groups.filter (fun g => g.layoutId == id)) db []
  have hproj1 : (deleteLayout id db).1.layouts =
      ((db.groups.filter (fun g => g.layoutId == id)).foldl
        deleteLayoutStep (db, [])).1.layouts.filter
          (fun l => !(l.id == id)) := rfl
  have hproj2 : (deleteLayout id db).1.groups =
      ((db.groups.filter (fun g => g.layoutId == id)).foldl
        deleteLayoutStep (db, [])).1.groups.filter
          (fun g => !(g.layoutId == id)) := rfl
  have hproj3 : (deleteLayout id db).1.locations =
      ((db.groups.filter (fun g => g.layoutId == id)).foldl
        deleteLayoutStep (db, [])).1.locations := rfl
  have hproj4 : (deleteLayout id db).2 =
      ((db.groups.filter (fun g => g.layoutId == id)).foldl
        deleteLayoutStep (db, [])).2 ++
        [DeleteOp.groupsByLayout id, DeleteOp.layoutById id] := rfl
  refine ⟨?_, ?_, ?_, ?_, ?_⟩
  · rw [getLayoutById, hproj1, List.find?_eq_none]
    intro l hl'
    have := (List.mem_filter.mp hl').2
    simp only [Bool.not_eq_eq_eq_not, Bool.not_true,
      beq_eq_false_iff_ne, ne_eq] at this
    simp [this]
  · rw [getGroupsByLayoutId, hproj2, List.filter_eq_nil_iff]
    intro g hg'
    have := (List.mem_filter.mp hg').2
    simp only [Bool.not_eq_eq_eq_not, Bool.not_true,
      beq_eq_false_iff_ne, ne_eq] at this
    simp [this]
  · intro g hgmem hglay
    rw [getLocationsByGroupId, hproj3, List.filter_eq_nil_iff]
    intro loc hl'
    obtain ⟨-, hall⟩ := (hloc loc).mp hl'
    have hgin : g ∈ db.groups.filter (fun g => g.layoutId == id) :=
      List.mem_filter.mpr ⟨hgmem, by simp [hglay]⟩
    have := hall g hgin (hids g hgmem)
    simp [this]
  · rw [getLocationsByLayoutId, hproj3, List.filter_eq_nil_iff]
    intro loc hl'
    obtain ⟨hmem, hall⟩ := (hloc loc).mp hl'
    intro hbeq
    have hlay : loc.layoutId = id := by simpa using hbeq
    obtain ⟨g, hgmem, hgid, hglay⟩ := hcons loc hmem
    have hgin : g ∈ db.groups.filter (fun g => g.layoutId == id) :=
      List.mem_filter.mpr ⟨hgmem, by simp [hglay, hlay]⟩
    exact hall g hgin (hids g hgmem) hgid.symm
  · rw [traceOrdered, hproj4, List.map_append]
    rw [List.pairwise_append]
    refine ⟨?_, ?_, ?_⟩
    · refine pairwise_le_of_all_zero _ (fun x hx => ?_)
      obtain ⟨op, hop, rfl⟩ := List.mem_map.mp hx
      rcases htr op hop with hin | hkind
      · exact absurd hin (List.not_mem_nil op)
      · exact hkind
    · refine List.Pairwise.cons ?_ (List.Pairwise.cons ?_ List.Pairwise.nil) <;>
        simp [DeleteOp.kind]
    · intro a ha b hb
      obtain ⟨op, hop, rfl⟩ := List.mem_map.mp ha
      rcases htr op hop with hin | hkind
      · exact absurd hin (List.not_mem_nil op)
      · rw [hkind]
        exact Nat.zero_le b

/-- Witness for C2: deleting `lay0` (id 1) from the one-layout,
one-group, one-location store `dbOne`. -/
theorem deleteLayout_cascades_witness :
    ((∀ g ∈ dbOne.groups, g.id ≠ 0) ∧
      (∀ loc ∈ dbOne.locations, ∃ g ∈ dbOne.groups,
        g.id = loc.groupId ∧ g.layoutId = loc.layoutId)) ∧
    (getLayoutById 1 (deleteLayout 1 dbOne).1 = none ∧
      getGroupsByLayoutId 1 (deleteLayout 1 dbOne).1 = [] ∧
      (∀ g ∈ dbOne.groups, g.layoutId = 1 →
        getLocationsByGroupId g.id (deleteLayout 1 dbOne).1 = []) ∧
      getLocationsByLayoutId 1 (deleteLayout 1 dbOne).1 = [] ∧
      traceOrdered (deleteLayout 1 dbOne).2) :=
  ⟨⟨by decide, by decide⟩,
   deleteLayout_cascades (by decide) (by decide)⟩

end SpatialWise
